import Mathlib

/-!
A model of `mlir/lib/Conversion/GPUToSPIRV/WmmaOpsToSPIRV.cpp`: the lowering
of GPU subgroup MMA (WMMA) operations to SPIR-V NV cooperative-matrix
operations, together with theorems about the rewrite rules the file defines.

Each C++ `matchAndRewrite` member is modelled as a pure function from the
matched operation and its adaptor (the already-lowered operands) to a
`LogicalResult` plus the ordered list of rewriter actions the rule performed
(`create` for each operation built with `rewriter.create`, and
`replaceOpWith` for the final `rewriter.replaceOpWithNewOp`, which both
creates the new operation and redirects every use of the matched operation's
result to it). A rule that declines returns `LogicalResult.failure` and its
action list records what it emitted before declining.
-/

namespace WmmaToSPIRV

/-- Scalar element types that can appear in a matrix type. -/
inductive ElemType where
  | f16
  | f32
  | i8
  | i32
deriving DecidableEq, Repr

/-- Execution scope of a SPIR-V cooperative matrix (`spirv::Scope`). Only
`Subgroup` is used by this lowering; the other constructors exist so that
"the scope is fixed to subgroup" is a contentful statement. -/
inductive Scope where
  | Subgroup
  | Workgroup
  | Device
deriving DecidableEq, Repr

/-- The GPU dialect abstract matrix type `gpu::MMAMatrixType`: a verified 2-D
shape (entries are `int64_t`) and an element type. -/
structure MMAMatrixType where
  rows : Int
  cols : Int
  elementType : ElemType
deriving DecidableEq, Repr

/-- The SPIR-V target type `spirv::CooperativeMatrixNVType`: element type,
execution scope, and 2-D shape. -/
structure CooperativeMatrixNVType where
  elementType : ElemType
  scope : Scope
  rows : Int
  cols : Int
deriving DecidableEq, Repr

/-- The types a value of the modelled IR fragment can carry. -/
inductive MLIRType where
  | mmaMatrix (t : MMAMatrixType)
  | coopMatrixNV (t : CooperativeMatrixNVType)
  | scalar (e : ElemType)
  | int32
  | int1
  | pointer
  | memref
deriving DecidableEq, Repr

/-- The kind of an SSA value's defining operation, as far as the rules inspect
it: `lhs.getDefiningOp<gpu::SubgroupMmaConstantMatrixOp>()` and
`splat.getDefiningOp<spirv::CompositeConstructOp>()` are the only two
defining-op queries in the source. `unknown` models a value with no defining
operation (such as a block argument, where `getDefiningOp` returns null). -/
inductive ProducerKind where
  | unknown
  | subgroupMmaConstantMatrix
  | compositeConstruct
  | spirvConstantInt (value : Int)
  | spirvConstantBool (value : Bool)
  | otherOp
deriving DecidableEq, Repr

/-- An SSA value: its type, the kind of its defining operation, and that
operation's operand list (for a `CompositeConstructOp` producer these are the
constituents the scalar-fusion rule reads). -/
inductive Value where
  | mk (ty : MLIRType) (producer : ProducerKind) (producerOperands : List Value)

/-- The type of a value. -/
def Value.ty : Value → MLIRType
  | .mk t _ _ => t

/-- The kind of the value's defining operation. -/
def Value.producer : Value → ProducerKind
  | .mk _ p _ => p

/-- The operand list of the value's defining operation. -/
def Value.producerOperands : Value → List Value
  | .mk _ _ os => os

/-- `isa<spirv::CooperativeMatrixNVType>(operand.getType())`. -/
def Value.isCooperativeMatrixNVType (v : Value) : Bool :=
  match v.ty with
  | .coopMatrixNV _ => true
  | _ => false

/-- `value.getDefiningOp<gpu::SubgroupMmaConstantMatrixOp>()` tested for
non-null: whether the value's defining operation is the generic
constant-matrix (splat) operation. -/
def Value.definingOpIsConstantMatrix (v : Value) : Bool :=
  match v.producer with
  | .subgroupMmaConstantMatrix => true
  | _ => false

/-- `value.getDefiningOp<spirv::CompositeConstructOp>()`: when the value's
defining operation is a `spirv.CompositeConstruct`, its constituent list,
and `none` otherwise. -/
def getDefiningCompositeConstructConstituents (v : Value) : Option (List Value) :=
  match v.producer with
  | .compositeConstruct => some v.producerOperands
  | _ => none

/-- `mlir::convertMMAToSPIRVCoopMatrixNVType`: reads `shape[0]`, `shape[1]`
and the element type of the abstract matrix type and builds the cooperative
matrix type with `spirv::Scope::Subgroup`. -/
def convertMMAToSPIRVCoopMatrixNVType (type : MMAMatrixType) : CooperativeMatrixNVType :=
  { elementType := type.elementType
    scope := Scope.Subgroup
    rows := type.rows
    cols := type.cols }

/-- The 32-bit two's-complement payload stored by
`IntegerAttr::get(i32Type, stride)` for an `int64_t` stride: the `APInt`
constructor of width 32 keeps the low 32 bits, read back signed.
`4294967296 = 2 ^ 32` and `2147483648 = 2 ^ 31`. -/
def truncToI32 (v : Int) : Int :=
  (v + 2147483648) % 4294967296 - 2147483648

/-- External collaborator `spirv::getElementPtr`: computes the single element
address from the lowered buffer value and index list. Its internals are out
of scope for this file; it is modelled as an abstract pointer-typed value
remembering its inputs. -/
def spirvGetElementPtr (base : Value) (indices : List Value) : Value :=
  Value.mk MLIRType.pointer ProducerKind.otherOp (base :: indices)

/-- The result value of a `spirv.Constant` of type `i32` holding `v`. -/
def constantI32Result (v : Int) : Value :=
  Value.mk MLIRType.int32 (ProducerKind.spirvConstantInt v) []

/-- The result value of a `spirv.Constant` of type `i1` holding `b`. -/
def constantI1Result (b : Bool) : Value :=
  Value.mk MLIRType.int1 (ProducerKind.spirvConstantBool b) []

/-- The SPIR-V arithmetic operation kinds that `createElementwiseOp` can
emit. -/
inductive SPIRVElementwiseKind where
  | FAddOp
  | IAddOp
  | FSubOp
  | ISubOp
  | FDivOp
  | SDivOp
  | UDivOp
  | FNegateOp
  | SNegateOp
  | FConvertOp
deriving DecidableEq, Repr

/-- A SPIR-V operation emitted by one of the rules. The trailing
`spirv::MemoryAccessAttr()` passed to the load and store builders is the null
attribute and is omitted from the model. -/
inductive TargetOp where
  | spirvConstantI32 (value : Int)
  | spirvConstantI1 (value : Bool)
  | nvCoopMatrixLoad (resType : CooperativeMatrixNVType)
      (pointer stride columnMajor : Value)
  | nvCoopMatrixStore (pointer object stride columnMajor : Value)
  | nvCoopMatrixMulAdd (resType : MLIRType) (a b c : Value)
  | compositeConstruct (resType : CooperativeMatrixNVType) (constituents : List Value)
  | elementwise (kind : SPIRVElementwiseKind) (resType : CooperativeMatrixNVType)
      (operands : List Value)
  | matrixTimesScalar (resType : CooperativeMatrixNVType) (matrix scalar : Value)

/-- One action performed through the `ConversionPatternRewriter`. -/
inductive RewriteAction where
  | create (op : TargetOp)
  | replaceOpWith (newOp : TargetOp)

/-- `mlir::LogicalResult`. -/
inductive LogicalResult where
  | success
  | failure
deriving DecidableEq, Repr

/-- The GPU elementwise sub-kinds `gpu::MMAElementwiseOp`. -/
inductive MMAElementwiseOp where
  | ADDF
  | MULF
  | SUBF
  | MAXF
  | MINF
  | DIVF
  | ADDI
  | MULI
  | SUBI
  | DIVS
  | DIVU
  | NEGATEF
  | NEGATES
  | EXTF
deriving DecidableEq, Repr

/-- `gpu.subgroup_mma_load_matrix`: source memref, indices, result matrix
type, leading dimension (an `IndexAttr`, read with `getSExtValue`), and the
transpose unit attribute. -/
structure SubgroupMmaLoadMatrixOp where
  srcMemref : Value
  indices : List Value
  resType : MMAMatrixType
  leadDimension : Int
  transpose : Bool

/-- The adaptor of a matched load: the already-lowered operands. -/
structure LoadOpAdaptor where
  srcMemref : Value
  indices : List Value

/-- `gpu.subgroup_mma_store_matrix`. -/
structure SubgroupMmaStoreMatrixOp where
  src : Value
  dstMemref : Value
  indices : List Value
  leadDimension : Int
  transpose : Bool

/-- The adaptor of a matched store. -/
structure StoreOpAdaptor where
  src : Value
  dstMemref : Value
  indices : List Value

/-- `gpu.subgroup_mma_compute`: the three matrix operands. -/
structure SubgroupMmaComputeOp where
  opA : Value
  opB : Value
  opC : Value

/-- The adaptor of a matched compute operation. -/
structure ComputeOpAdaptor where
  opA : Value
  opB : Value
  opC : Value

/-- `gpu.subgroup_mma_constant_matrix`: one scalar operand and the abstract
matrix result type. -/
structure SubgroupMmaConstantMatrixOp where
  value : Value
  resType : MMAMatrixType

/-- The adaptor of a matched constant-matrix operation (the operation has
exactly one operand). -/
structure ConstantOpAdaptor where
  value : Value

/-- `gpu.subgroup_mma_elementwise`: the original operands, the elementwise
sub-kind, and the abstract matrix result type. -/
structure SubgroupMmaElementwiseOp where
  operands : List Value
  opType : MMAElementwiseOp
  resType : MMAMatrixType

/-- The adaptor of a matched elementwise operation. -/
structure ElementwiseOpAdaptor where
  operands : List Value

/-- `createElementwiseOp`: the switch on `op.getOpType()`. In the source the
replacement happens inside the switch and the function returns `true`; here
the emitted operation is returned and the caller builds the action, which is
the same observable behaviour. Returns `none` on the `default` case. -/
def createElementwiseOp (op : SubgroupMmaElementwiseOp)
    (coopType : CooperativeMatrixNVType) (operands : List Value) : Option TargetOp :=
  match op.opType with
  | .ADDF => some (.elementwise .FAddOp coopType operands)
  | .ADDI => some (.elementwise .IAddOp coopType operands)
  | .SUBF => some (.elementwise .FSubOp coopType operands)
  | .SUBI => some (.elementwise .ISubOp coopType operands)
  | .DIVF => some (.elementwise .FDivOp coopType operands)
  | .DIVS => some (.elementwise .SDivOp coopType operands)
  | .DIVU => some (.elementwise .UDivOp coopType operands)
  | .NEGATEF => some (.elementwise .FNegateOp coopType operands)
  | .NEGATES => some (.elementwise .SNegateOp coopType operands)
  | .EXTF => some (.elementwise .FConvertOp coopType operands)
  | _ => none

/-- `WmmaLoadOpToSPIRVLowering::matchAndRewrite`. -/
def WmmaLoadOpToSPIRVLowering.matchAndRewrite (op : SubgroupMmaLoadMatrixOp)
    (adaptor : LoadOpAdaptor) : LogicalResult × List RewriteAction :=
  let bufferPtr := spirvGetElementPtr adaptor.srcMemref adaptor.indices
  let coopType := convertMMAToSPIRVCoopMatrixNVType op.resType
  let stride := op.leadDimension
  let strideAttr := truncToI32 stride
  let strideValue := constantI32Result strideAttr
  let isColMajor := op.transpose
  let columnMajor := constantI1Result isColMajor
  (.success,
    [.create (.spirvConstantI32 strideAttr),
     .create (.spirvConstantI1 isColMajor),
     .replaceOpWith (.nvCoopMatrixLoad coopType bufferPtr strideValue columnMajor)])

/-- `WmmaStoreOpToSPIRVLowering::matchAndRewrite`. -/
def WmmaStoreOpToSPIRVLowering.matchAndRewrite (op : SubgroupMmaStoreMatrixOp)
    (adaptor : StoreOpAdaptor) : LogicalResult × List RewriteAction :=
  let bufferPtr := spirvGetElementPtr adaptor.dstMemref adaptor.indices
  let stride := op.leadDimension
  let strideAttr := truncToI32 stride
  let strideValue := constantI32Result strideAttr
  let useColMajor := op.transpose
  let columnMajor := constantI1Result useColMajor
  (.success,
    [.create (.spirvConstantI32 strideAttr),
     .create (.spirvConstantI1 useColMajor),
     .replaceOpWith (.nvCoopMatrixStore bufferPtr adaptor.src strideValue columnMajor)])

/-- `WmmaMmaOpToSPIRVLowering::matchAndRewrite`. -/
def WmmaMmaOpToSPIRVLowering.matchAndRewrite (op : SubgroupMmaComputeOp)
    (adaptor : ComputeOpAdaptor) : LogicalResult × List RewriteAction :=
  (.success,
    [.replaceOpWith
      (.nvCoopMatrixMulAdd adaptor.opC.ty adaptor.opA adaptor.opB adaptor.opC)])

/-- `WmmaConstantOpToSPIRVLowering::matchAndRewrite`. -/
def WmmaConstantOpToSPIRVLowering.matchAndRewrite (op : SubgroupMmaConstantMatrixOp)
    (adaptor : ConstantOpAdaptor) : LogicalResult × List RewriteAction :=
  let cst := adaptor.value
  let coopType := convertMMAToSPIRVCoopMatrixNVType op.resType
  (.success, [.replaceOpWith (.compositeConstruct coopType [cst])])

/-- `WmmaElementwiseOpToSPIRVDefaultLowering::matchAndRewrite`: declines when
some adaptor operand's type is not a cooperative matrix type, otherwise
defers to `createElementwiseOp`. -/
def WmmaElementwiseOpToSPIRVDefaultLowering.matchAndRewrite
    (op : SubgroupMmaElementwiseOp) (adaptor : ElementwiseOpAdaptor) :
    LogicalResult × List RewriteAction :=
  if adaptor.operands.all Value.isCooperativeMatrixNVType then
    let coopType := convertMMAToSPIRVCoopMatrixNVType op.resType
    match createElementwiseOp op coopType adaptor.operands with
    | some newOp => (.success, [.replaceOpWith newOp])
    | none => (.failure, [])
  else (.failure, [])

/-- The scalar extraction of the scalar-fusion rule: the
`splat.getDefiningOp<spirv::CompositeConstructOp>()` query followed, on the
null case, by `return failure()`, and otherwise by
`assert(cc.getConstituents().size() == 1)` and `cc.getConstituents().front()`.
The model reads the head of the constituent list; the empty case the
assertion rules out yields `none`. -/
def extractScalarFromSplat (splat : Value) : Option Value :=
  match getDefiningCompositeConstructConstituents splat with
  | none => none
  | some constituents => constituents.head?

/-- `WmmaElementwiseOpToSPIRVScalarMulLowering::matchAndRewrite`. The source
reads `front()`/`back()` of the original operand list without a guard (the
adaptor size has already been checked to be 2, and the original list has the
same arity for any well-formed operation); the unreachable empty cases are
mapped to `failure`. -/
def WmmaElementwiseOpToSPIRVScalarMulLowering.matchAndRewrite
    (op : SubgroupMmaElementwiseOp) (adaptor : ElementwiseOpAdaptor) :
    LogicalResult × List RewriteAction :=
  if adaptor.operands.length ≠ 2 then (.failure, [])
  else if adaptor.operands.all Value.isCooperativeMatrixNVType then
    if op.opType ≠ MMAElementwiseOp.MULF then (.failure, [])
    else
      match op.operands.head?, op.operands.getLast?,
          adaptor.operands.head?, adaptor.operands.getLast? with
      | some lhs, some rhs, some adaptorFront, some adaptorBack =>
        let splatMatrix : Option (Value × Value) :=
          if lhs.definingOpIsConstantMatrix then some (adaptorFront, adaptorBack)
          else if rhs.definingOpIsConstantMatrix then some (adaptorBack, adaptorFront)
          else none
        match splatMatrix with
        | none => (.failure, [])
        | some (splat, matrix) =>
          match extractScalarFromSplat splat with
          | none => (.failure, [])
          | some scalar =>
            let coopType := convertMMAToSPIRVCoopMatrixNVType op.resType
            (.success,
              [.replaceOpWith (.matrixTimesScalar coopType matrix scalar)])
      | _, _, _, _ => (.failure, [])
  else (.failure, [])

/-- The six rewrite-rule classes of the file. -/
inductive WmmaPattern where
  | loadLowering
  | mmaLowering
  | storeLowering
  | constantLowering
  | elementwiseDefaultLowering
  | elementwiseScalarMulLowering
deriving DecidableEq, Repr

/-- A rule instance inserted into the rewrite-rule set, with its benefit
(priority weight). -/
structure PatternEntry where
  rule : WmmaPattern
  benefit : Nat
deriving DecidableEq, Repr

/-- `mlir::populateGpuWMMAToSPIRVCoopMatrixNVConversionPatterns`: the first
`patterns.add` call inserts five rules at the default benefit 1; the second
inserts the scalar-multiply fusion rule at benefit 2. -/
def populateGpuWMMAToSPIRVCoopMatrixNVConversionPatterns : List PatternEntry :=
  [{ rule := .loadLowering, benefit := 1 },
   { rule := .mmaLowering, benefit := 1 },
   { rule := .storeLowering, benefit := 1 },
   { rule := .constantLowering, benefit := 1 },
   { rule := .elementwiseDefaultLowering, benefit := 1 },
   { rule := .elementwiseScalarMulLowering, benefit := 2 }]

/-- Operation kinds of the two instruction sets, for the root-kind analysis
of the registered rules. -/
inductive OpKind where
  | gpuSubgroupMmaLoadMatrix
  | gpuSubgroupMmaStoreMatrix
  | gpuSubgroupMmaCompute
  | gpuSubgroupMmaConstantMatrix
  | gpuSubgroupMmaElementwise
  | spirvNVCooperativeMatrixLoad
  | spirvNVCooperativeMatrixStore
  | spirvNVCooperativeMatrixMulAdd
  | spirvCompositeConstruct
  | spirvMatrixTimesScalar
  | spirvConstant
  | spirvFAdd
  | spirvIAdd
  | spirvFSub
  | spirvISub
  | spirvFDiv
  | spirvSDiv
  | spirvUDiv
  | spirvFNegate
  | spirvSNegate
  | spirvFConvert
deriving DecidableEq, Repr

/-- Whether a kind belongs to the target (SPIR-V cooperative-matrix side)
instruction set rather than the generic GPU one. -/
def OpKind.isTargetKind : OpKind → Bool
  | .gpuSubgroupMmaLoadMatrix => false
  | .gpuSubgroupMmaStoreMatrix => false
  | .gpuSubgroupMmaCompute => false
  | .gpuSubgroupMmaConstantMatrix => false
  | .gpuSubgroupMmaElementwise => false
  | _ => true

/-- The kind of an emitted SPIR-V operation. -/
def TargetOp.opKind : TargetOp → OpKind
  | .spirvConstantI32 _ => .spirvConstant
  | .spirvConstantI1 _ => .spirvConstant
  | .nvCoopMatrixLoad _ _ _ _ => .spirvNVCooperativeMatrixLoad
  | .nvCoopMatrixStore _ _ _ _ => .spirvNVCooperativeMatrixStore
  | .nvCoopMatrixMulAdd _ _ _ _ => .spirvNVCooperativeMatrixMulAdd
  | .compositeConstruct _ _ => .spirvCompositeConstruct
  | .matrixTimesScalar _ _ _ => .spirvMatrixTimesScalar
  | .elementwise k _ _ =>
    match k with
    | .FAddOp => .spirvFAdd
    | .IAddOp => .spirvIAdd
    | .FSubOp => .spirvFSub
    | .ISubOp => .spirvISub
    | .FDivOp => .spirvFDiv
    | .SDivOp => .spirvSDiv
    | .UDivOp => .spirvUDiv
    | .FNegateOp => .spirvFNegate
    | .SNegateOp => .spirvSNegate
    | .FConvertOp => .spirvFConvert

/-- The root operation kind each rule class is an `OpConversionPattern` of:
the only operation kind instances of that class are ever tried on. -/
def patternRootKind : WmmaPattern → OpKind
  | .loadLowering => .gpuSubgroupMmaLoadMatrix
  | .mmaLowering => .gpuSubgroupMmaCompute
  | .storeLowering => .gpuSubgroupMmaStoreMatrix
  | .constantLowering => .gpuSubgroupMmaConstantMatrix
  | .elementwiseDefaultLowering => .gpuSubgroupMmaElementwise
  | .elementwiseScalarMulLowering => .gpuSubgroupMmaElementwise

/-- A rule can match an operation only when the operation's kind is the
rule's root kind (the semantics of `OpConversionPattern`). -/
def patternMatchesKind (p : WmmaPattern) (k : OpKind) : Prop :=
  patternRootKind p = k

/-- The elementwise sub-kinds the default rule supports, as the spec lists
them. -/
def supportedElementwiseKinds : List MMAElementwiseOp :=
  [.ADDF, .ADDI, .SUBF, .SUBI, .DIVF, .DIVS, .DIVU, .NEGATEF, .NEGATES, .EXTF]

/-- Spec-side definition of the documented one-to-one sub-kind mapping of the
elementwise default rule ("float-add maps to target float-add", and so on),
written from the spec's words to be compared with `createElementwiseOp`. -/
def specElementwiseTarget : MMAElementwiseOp → Option SPIRVElementwiseKind
  | .ADDF => some .FAddOp
  | .ADDI => some .IAddOp
  | .SUBF => some .FSubOp
  | .SUBI => some .ISubOp
  | .DIVF => some .FDivOp
  | .DIVS => some .SDivOp
  | .DIVU => some .UDivOp
  | .NEGATEF => some .FNegateOp
  | .NEGATES => some .SNegateOp
  | .EXTF => some .FConvertOp
  | _ => none

/-- The stride payload of the first constant emitted by the load rule, when
the rule's action list has the emitted shape. -/
def emittedLoadStrideConstant (op : SubgroupMmaLoadMatrixOp)
    (adaptor : LoadOpAdaptor) : Option Int :=
  match WmmaLoadOpToSPIRVLowering.matchAndRewrite op adaptor with
  | (_, RewriteAction.create (TargetOp.spirvConstantI32 v) :: _) => some v
  | _ => none

/-- A 16 by 16 f32 abstract matrix type, used as concrete input. -/
def mt0 : MMAMatrixType := { rows := 16, cols := 16, elementType := .f32 }

/-- The cooperative matrix type `mt0` translates to. -/
def ct0 : CooperativeMatrixNVType :=
  { elementType := .f32, scope := .Subgroup, rows := 16, cols := 16 }

/-- A concrete f32 scalar value. -/
def s0 : Value := .mk (.scalar .f32) .unknown []

/-- A second concrete f32 scalar value. -/
def s1 : Value := .mk (.scalar .f32) .otherOp []

/-- A concrete original operand produced by a constant-matrix operation. -/
def x0 : Value := .mk (.mmaMatrix mt0) .subgroupMmaConstantMatrix []

/-- A concrete original operand not produced by a constant-matrix
operation. -/
def y0 : Value := .mk (.mmaMatrix mt0) .otherOp []

/-- A second concrete original operand produced by a constant-matrix
operation. -/
def y1 : Value := .mk (.mmaMatrix mt0) .subgroupMmaConstantMatrix []

/-- A concrete lowered operand emitted as a single-constituent
`spirv.CompositeConstruct`. -/
def a0 : Value := .mk (.coopMatrixNV ct0) .compositeConstruct [s0]

/-- A concrete lowered cooperative-matrix operand whose defining operation is
a `spirv.CompositeConstruct` with two constituents. -/
def a2 : Value := .mk (.coopMatrixNV ct0) .compositeConstruct [s0, s1]

/-- A concrete lowered genuine-matrix operand. -/
def b0 : Value := .mk (.coopMatrixNV ct0) .otherOp []

/-- A concrete lowered operand that is not of cooperative matrix type. -/
def m0 : Value := .mk .memref .unknown []

/-- The default elementwise rule either declines with an empty action list or
succeeds: every return site is one of the two. -/
theorem elementwiseDefault_result_shape (op : SubgroupMmaElementwiseOp)
    (adaptor : ElementwiseOpAdaptor) :
    WmmaElementwiseOpToSPIRVDefaultLowering.matchAndRewrite op adaptor =
        (LogicalResult.failure, []) ∨
      (WmmaElementwiseOpToSPIRVDefaultLowering.matchAndRewrite op adaptor).1 =
        LogicalResult.success := by
  unfold WmmaElementwiseOpToSPIRVDefaultLowering.matchAndRewrite
  split
  · cases hc : createElementwiseOp op (convertMMAToSPIRVCoopMatrixNVType op.resType)
        adaptor.operands <;> simp [hc]
  · simp

/-- The scalar-multiply fusion rule either declines with an empty action list
or succeeds: every return site is one of the two. -/
theorem scalarMul_result_shape (op : SubgroupMmaElementwiseOp)
    (adaptor : ElementwiseOpAdaptor) :
    WmmaElementwiseOpToSPIRVScalarMulLowering.matchAndRewrite op adaptor =
        (LogicalResult.failure, []) ∨
      (WmmaElementwiseOpToSPIRVScalarMulLowering.matchAndRewrite op adaptor).1 =
        LogicalResult.success := by
  unfold WmmaElementwiseOpToSPIRVScalarMulLowering.matchAndRewrite
  split
  · exact Or.inl rfl
  · split
    · split
      · exact Or.inl rfl
      · rcases h1 : op.operands.head? with _ | lhs
        · simp [h1]
        · rcases h2 : op.operands.getLast? with _ | rhs
          · simp [h1, h2]
          · rcases h3 : adaptor.operands.head? with _ | front
            · simp [h1, h2, h3]
            · rcases h4 : adaptor.operands.getLast? with _ | back
              · simp [h1, h2, h3, h4]
              · cases hx : lhs.definingOpIsConstantMatrix
                · cases hy : rhs.definingOpIsConstantMatrix
                  · simp [h1, h2, h3, h4, hx, hy]
                  · cases hg : extractScalarFromSplat back <;>
                      simp [h1, h2, h3, h4, hx, hy, hg]
                · cases hg : extractScalarFromSplat front <;>
                    simp [h1, h2, h3, h4, hx, hg]
    · exact Or.inl rfl

/-- C1: for a float-multiply elementwise operation with two lowered
cooperative-matrix operands, when exactly one original operand is produced by
a constant-matrix operation and its lowered form is a single-constituent
`spirv.CompositeConstruct`, the scalar-fusion rule emits one
matrix-times-scalar operation with the lowered genuine-matrix operand as the
matrix and the constituent scalar, whether the constant-derived operand was
the left or the right original operand; and when neither original operand is
produced by a constant-matrix operation the rule declines, emitting
nothing. -/
theorem c1_scalar_fusion (x y : Value) (ty : MMAMatrixType) :
    (∀ a b s : Value,
      a.isCooperativeMatrixNVType = true →
      b.isCooperativeMatrixNVType = true →
      x.definingOpIsConstantMatrix = true →
      y.definingOpIsConstantMatrix = false →
      getDefiningCompositeConstructConstituents a = some [s] →
      WmmaElementwiseOpToSPIRVScalarMulLowering.matchAndRewrite
          { operands := [x, y], opType := .MULF, resType := ty }
          { operands := [a, b] } =
        (LogicalResult.success,
         [RewriteAction.replaceOpWith
           (TargetOp.matrixTimesScalar (convertMMAToSPIRVCoopMatrixNVType ty) b s)])) ∧
    (∀ a b s : Value,
      a.isCooperativeMatrixNVType = true →
      b.isCooperativeMatrixNVType = true →
      x.definingOpIsConstantMatrix = false →
      y.definingOpIsConstantMatrix = true →
      getDefiningCompositeConstructConstituents b = some [s] →
      WmmaElementwiseOpToSPIRVScalarMulLowering.matchAndRewrite
          { operands := [x, y], opType := .MULF, resType := ty }
          { operands := [a, b] } =
        (LogicalResult.success,
         [RewriteAction.replaceOpWith
           (TargetOp.matrixTimesScalar (convertMMAToSPIRVCoopMatrixNVType ty) a s)])) ∧
    (∀ adaptorOps : List Value,
      x.definingOpIsConstantMatrix = false →
      y.definingOpIsConstantMatrix = false →
      WmmaElementwiseOpToSPIRVScalarMulLowering.matchAndRewrite
          { operands := [x, y], opType := .MULF, resType := ty }
          { operands := adaptorOps } =
        (LogicalResult.failure, [])) := by
  refine ⟨?_, ?_, ?_⟩
  · intro a b s ha hb hx hy hcc
    simp [WmmaElementwiseOpToSPIRVScalarMulLowering.matchAndRewrite,
      extractScalarFromSplat, ha, hb, hx, hcc, List.getLast?]
  · intro a b s ha hb hx hy hcc
    simp [WmmaElementwiseOpToSPIRVScalarMulLowering.matchAndRewrite,
      extractScalarFromSplat, ha, hb, hx, hy, hcc, List.getLast?]
  · intro adaptorOps hx hy
    by_cases hlen : adaptorOps.length = 2
    · obtain ⟨o1, o2, rfl⟩ := List.length_eq_two.mp hlen
      simp [WmmaElementwiseOpToSPIRVScalarMulLowering.matchAndRewrite, hx, hy,
        List.getLast?]
    · simp [WmmaElementwiseOpToSPIRVScalarMulLowering.matchAndRewrite, hlen]

/-- C1 witness: the left-constant case at concrete inputs. -/
theorem c1_witness :
    WmmaElementwiseOpToSPIRVScalarMulLowering.matchAndRewrite
        { operands := [x0, y0], opType := .MULF, resType := mt0 }
        { operands := [a0, b0] } =
      (LogicalResult.success,
       [RewriteAction.replaceOpWith (TargetOp.matrixTimesScalar ct0 b0 s0)]) :=
  (c1_scalar_fusion x0 y0 mt0).1 a0 b0 s0 rfl rfl rfl rfl rfl

/-- C2 (amended): the load and store rules always succeed; the emitted
column-major constant equals the transpose flag, and the emitted stride
constant equals the stride truncated to 32 bits, which equals the stride
whenever the stride fits in the signed 32-bit range. -/
theorem c2_load_store_stride_colmajor (rt : MMAMatrixType) (s : Int) (t : Bool)
    (src asrc obj aobj dst adst : Value) (idx aidx : List Value) :
    (WmmaLoadOpToSPIRVLowering.matchAndRewrite
        { srcMemref := src, indices := idx, resType := rt, leadDimension := s,
          transpose := t }
        { srcMemref := asrc, indices := aidx } =
      (LogicalResult.success,
       [RewriteAction.create (TargetOp.spirvConstantI32 (truncToI32 s)),
        RewriteAction.create (TargetOp.spirvConstantI1 t),
        RewriteAction.replaceOpWith
          (TargetOp.nvCoopMatrixLoad (convertMMAToSPIRVCoopMatrixNVType rt)
            (spirvGetElementPtr asrc aidx) (constantI32Result (truncToI32 s))
            (constantI1Result t))])) ∧
    (WmmaStoreOpToSPIRVLowering.matchAndRewrite
        { src := obj, dstMemref := dst, indices := idx, leadDimension := s,
          transpose := t }
        { src := aobj, dstMemref := adst, indices := aidx } =
      (LogicalResult.success,
       [RewriteAction.create (TargetOp.spirvConstantI32 (truncToI32 s)),
        RewriteAction.create (TargetOp.spirvConstantI1 t),
        RewriteAction.replaceOpWith
          (TargetOp.nvCoopMatrixStore (spirvGetElementPtr adst aidx) aobj
            (constantI32Result (truncToI32 s)) (constantI1Result t))])) ∧
    (-2147483648 ≤ s → s < 2147483648 → truncToI32 s = s) := by
  refine ⟨rfl, rfl, fun h1 h2 => ?_⟩
  unfold truncToI32
  omega

/-- C2 witness: at stride 16 (which fits in 32 bits) the truncated constant
is 16 itself. -/
theorem c2_witness : truncToI32 16 = 16 :=
  (c2_load_store_stride_colmajor mt0 16 false m0 m0 m0 m0 m0 m0 [] []).2.2
    (by decide) (by decide)

/-- C2 counterexample: with leading-dimension stride `4294967303 = 2 ^ 32 + 7`
the load rule's emitted stride constant is `7`, not the stride itself, so the
emitted stride constant does not equal S for every S. -/
theorem c2_counterexample :
    emittedLoadStrideConstant
        { srcMemref := m0, indices := [], resType := mt0,
          leadDimension := 4294967303, transpose := false }
        { srcMemref := m0, indices := [] } = some 7 ∧ (7 : Int) ≠ 4294967303 := by
  exact ⟨rfl, by decide⟩

/-- C3: the default elementwise rule succeeds exactly when every lowered
operand's type is a cooperative matrix type and the sub-kind is in the
supported set; on success it emits the documented one-to-one target
operation, and on decline it emits nothing. -/
theorem c3_elementwise_default (op : SubgroupMmaElementwiseOp)
    (adaptor : ElementwiseOpAdaptor) :
    ((WmmaElementwiseOpToSPIRVDefaultLowering.matchAndRewrite op adaptor).1 =
        LogicalResult.success ↔
      (adaptor.operands.all Value.isCooperativeMatrixNVType = true ∧
        op.opType ∈ supportedElementwiseKinds)) ∧
    (∀ k : SPIRVElementwiseKind,
      adaptor.operands.all Value.isCooperativeMatrixNVType = true →
      specElementwiseTarget op.opType = some k →
      WmmaElementwiseOpToSPIRVDefaultLowering.matchAndRewrite op adaptor =
        (LogicalResult.success,
         [RewriteAction.replaceOpWith
           (TargetOp.elementwise k (convertMMAToSPIRVCoopMatrixNVType op.resType)
             adaptor.operands)])) ∧
    ((WmmaElementwiseOpToSPIRVDefaultLowering.matchAndRewrite op adaptor).1 =
        LogicalResult.failure →
      (WmmaElementwiseOpToSPIRVDefaultLowering.matchAndRewrite op adaptor).2 = []) := by
  rcases op with ⟨ops, kt, rt⟩
  cases hall : adaptor.operands.all Value.isCooperativeMatrixNVType
  · have hfail : WmmaElementwiseOpToSPIRVDefaultLowering.matchAndRewrite
        { operands := ops, opType := kt, resType := rt } adaptor =
        (LogicalResult.failure, []) := by
      unfold WmmaElementwiseOpToSPIRVDefaultLowering.matchAndRewrite
      rw [hall]
      simp
    rw [hfail]
    simp [hall]
  · cases kt <;>
      simp [WmmaElementwiseOpToSPIRVDefaultLowering.matchAndRewrite,
        createElementwiseOp, supportedElementwiseKinds, specElementwiseTarget, hall]

/-- C3 witness: a float-add over cooperative-matrix operands lowers to a
SPIR-V FAdd. -/
theorem c3_witness :
    WmmaElementwiseOpToSPIRVDefaultLowering.matchAndRewrite
        { operands := [y0, y0], opType := .ADDF, resType := mt0 }
        { operands := [b0, b0] } =
      (LogicalResult.success,
       [RewriteAction.replaceOpWith
         (TargetOp.elementwise SPIRVElementwiseKind.FAddOp ct0 [b0, b0])]) :=
  (c3_elementwise_default
      { operands := [y0, y0], opType := .ADDF, resType := mt0 }
      { operands := [b0, b0] }).2.1 SPIRVElementwiseKind.FAddOp rfl rfl

/-- C4: the multiply-accumulate rule always succeeds and emits a single
cooperative multiply-accumulate whose three operands are, in order, the
lowered A, B and C, with the lowered C operand's own type as result type and
no type translation applied. -/
theorem c4_mma_operand_order (op : SubgroupMmaComputeOp)
    (adaptor : ComputeOpAdaptor) :
    WmmaMmaOpToSPIRVLowering.matchAndRewrite op adaptor =
      (LogicalResult.success,
       [RewriteAction.replaceOpWith
         (TargetOp.nvCoopMatrixMulAdd adaptor.opC.ty adaptor.opA adaptor.opB
           adaptor.opC)]) := rfl

/-- C5: the type translator is total and deterministic, preserves the element
type and both shape dimensions, and fixes the execution scope to
subgroup. -/
theorem c5_type_translator (t : MMAMatrixType) :
    (convertMMAToSPIRVCoopMatrixNVType t).elementType = t.elementType ∧
    (convertMMAToSPIRVCoopMatrixNVType t).rows = t.rows ∧
    (convertMMAToSPIRVCoopMatrixNVType t).cols = t.cols ∧
    (convertMMAToSPIRVCoopMatrixNVType t).scope = Scope.Subgroup ∧
    (∀ u : MMAMatrixType, t = u →
      convertMMAToSPIRVCoopMatrixNVType t = convertMMAToSPIRVCoopMatrixNVType u) :=
  ⟨rfl, rfl, rfl, rfl, fun u h => by rw [h]⟩

/-- C5 witness: the translation of the concrete 16 by 16 f32 type. -/
theorem c5_witness :
    (convertMMAToSPIRVCoopMatrixNVType mt0).scope = Scope.Subgroup ∧
    convertMMAToSPIRVCoopMatrixNVType mt0 = convertMMAToSPIRVCoopMatrixNVType mt0 :=
  ⟨(c5_type_translator mt0).2.2.2.1, (c5_type_translator mt0).2.2.2.2 mt0 rfl⟩

/-- C6 (amended): the scalar-fusion rule declines when the constant-derived
operand's lowered form is not a `spirv.CompositeConstruct` at all; when it is
one, the single-constituent invariant is assumed (a debug assertion in the
source) rather than re-checked, and the rule fires extracting the first
constituent. -/
theorem c6_defensive_composite_check (x y a b : Value) (ty : MMAMatrixType) :
    (x.definingOpIsConstantMatrix = true →
      getDefiningCompositeConstructConstituents a = none →
      WmmaElementwiseOpToSPIRVScalarMulLowering.matchAndRewrite
          { operands := [x, y], opType := .MULF, resType := ty }
          { operands := [a, b] } = (LogicalResult.failure, [])) ∧
    (∀ (s : Value) (rest : List Value),
      a.isCooperativeMatrixNVType = true →
      b.isCooperativeMatrixNVType = true →
      x.definingOpIsConstantMatrix = true →
      getDefiningCompositeConstructConstituents a = some (s :: rest) →
      WmmaElementwiseOpToSPIRVScalarMulLowering.matchAndRewrite
          { operands := [x, y], opType := .MULF, resType := ty }
          { operands := [a, b] } =
        (LogicalResult.success,
         [RewriteAction.replaceOpWith
           (TargetOp.matrixTimesScalar (convertMMAToSPIRVCoopMatrixNVType ty) b s)])) := by
  constructor
  · intro hx hcc
    simp [WmmaElementwiseOpToSPIRVScalarMulLowering.matchAndRewrite,
      extractScalarFromSplat, hx, hcc, List.getLast?]
  · intro s rest ha hb hx hcc
    simp [WmmaElementwiseOpToSPIRVScalarMulLowering.matchAndRewrite,
      extractScalarFromSplat, ha, hb, hx, hcc, List.getLast?]

/-- C6 witness: when the constant-derived operand's lowered form is not a
`spirv.CompositeConstruct`, the rule declines. -/
theorem c6_witness :
    WmmaElementwiseOpToSPIRVScalarMulLowering.matchAndRewrite
        { operands := [x0, y0], opType := .MULF, resType := mt0 }
        { operands := [b0, b0] } = (LogicalResult.failure, []) :=
  (c6_defensive_composite_check x0 y0 b0 b0 mt0).1 rfl rfl

/-- C6 counterexample: with a lowered constant-derived operand that is a
`spirv.CompositeConstruct` with two constituents (so not a single-operand
construct-from-scalar), the rule does not decline: it succeeds and extracts
the first constituent. -/
theorem c6_counterexample :
    WmmaElementwiseOpToSPIRVScalarMulLowering.matchAndRewrite
        { operands := [x0, y0], opType := .MULF, resType := mt0 }
        { operands := [a2, b0] } =
      (LogicalResult.success,
       [RewriteAction.replaceOpWith (TargetOp.matrixTimesScalar ct0 b0 s0)]) ∧
    getDefiningCompositeConstructConstituents a2 = some [s0, s1] :=
  ⟨rfl, rfl⟩

/-- C7: the registration entry point inserts the load, multiply-accumulate,
store, constant-matrix and default elementwise rules at benefit 1 and the
scalar-multiply fusion rule at benefit 2, so the fusion rule outranks the
default elementwise rule. -/
theorem c7_registration :
    populateGpuWMMAToSPIRVCoopMatrixNVConversionPatterns =
      [{ rule := .loadLowering, benefit := 1 },
       { rule := .mmaLowering, benefit := 1 },
       { rule := .storeLowering, benefit := 1 },
       { rule := .constantLowering, benefit := 1 },
       { rule := .elementwiseDefaultLowering, benefit := 1 },
       { rule := .elementwiseScalarMulLowering, benefit := 2 }] ∧
    (∀ e ∈ populateGpuWMMAToSPIRVCoopMatrixNVConversionPatterns,
      e.rule ≠ WmmaPattern.elementwiseScalarMulLowering → e.benefit = 1) ∧
    (∀ e ∈ populateGpuWMMAToSPIRVCoopMatrixNVConversionPatterns,
      ∀ f ∈ populateGpuWMMAToSPIRVCoopMatrixNVConversionPatterns,
        e.rule = WmmaPattern.elementwiseScalarMulLowering →
        f.rule = WmmaPattern.elementwiseDefaultLowering →
        f.benefit < e.benefit) := by
  refine ⟨rfl, ?_, ?_⟩
  · intro e he h
    fin_cases he <;> simp_all
  · intro e he f hf he2 hf2
    fin_cases he <;> fin_cases hf <;> simp_all

/-- C7 witness: the default elementwise entry's benefit is below the fusion
entry's benefit. -/
theorem c7_witness :
    ({ rule := .elementwiseDefaultLowering, benefit := 1 } : PatternEntry).benefit <
      ({ rule := .elementwiseScalarMulLowering, benefit := 2 } : PatternEntry).benefit :=
  c7_registration.2.2 { rule := .elementwiseScalarMulLowering, benefit := 2 } (by decide)
    { rule := .elementwiseDefaultLowering, benefit := 1 } (by decide) rfl rfl

/-- C8: declining is atomic for all six rules: whenever a rule returns
failure it has performed no rewriter action (nothing created, no uses
redirected). -/
theorem c8_decline_is_atomic :
    (∀ (op : SubgroupMmaLoadMatrixOp) (adaptor : LoadOpAdaptor),
      (WmmaLoadOpToSPIRVLowering.matchAndRewrite op adaptor).1 = LogicalResult.failure →
      (WmmaLoadOpToSPIRVLowering.matchAndRewrite op adaptor).2 = []) ∧
    (∀ (op : SubgroupMmaStoreMatrixOp) (adaptor : StoreOpAdaptor),
      (WmmaStoreOpToSPIRVLowering.matchAndRewrite op adaptor).1 = LogicalResult.failure →
      (WmmaStoreOpToSPIRVLowering.matchAndRewrite op adaptor).2 = []) ∧
    (∀ (op : SubgroupMmaComputeOp) (adaptor : ComputeOpAdaptor),
      (WmmaMmaOpToSPIRVLowering.matchAndRewrite op adaptor).1 = LogicalResult.failure →
      (WmmaMmaOpToSPIRVLowering.matchAndRewrite op adaptor).2 = []) ∧
    (∀ (op : SubgroupMmaConstantMatrixOp) (adaptor : ConstantOpAdaptor),
      (WmmaConstantOpToSPIRVLowering.matchAndRewrite op adaptor).1 = LogicalResult.failure →
      (WmmaConstantOpToSPIRVLowering.matchAndRewrite op adaptor).2 = []) ∧
    (∀ (op : SubgroupMmaElementwiseOp) (adaptor : ElementwiseOpAdaptor),
      (WmmaElementwiseOpToSPIRVDefaultLowering.matchAndRewrite op adaptor).1 =
          LogicalResult.failure →
      (WmmaElementwiseOpToSPIRVDefaultLowering.matchAndRewrite op adaptor).2 = []) ∧
    (∀ (op : SubgroupMmaElementwiseOp) (adaptor : ElementwiseOpAdaptor),
      (WmmaElementwiseOpToSPIRVScalarMulLowering.matchAndRewrite op adaptor).1 =
          LogicalResult.failure →
      (WmmaElementwiseOpToSPIRVScalarMulLowering.matchAndRewrite op adaptor).2 = []) := by
  refine ⟨?_, ?_, ?_, ?_, ?_, ?_⟩
  · intro op adaptor h
    simp [WmmaLoadOpToSPIRVLowering.matchAndRewrite] at h
  · intro op adaptor h
    simp [WmmaStoreOpToSPIRVLowering.matchAndRewrite] at h
  · intro op adaptor h
    simp [WmmaMmaOpToSPIRVLowering.matchAndRewrite] at h
  · intro op adaptor h
    simp [WmmaConstantOpToSPIRVLowering.matchAndRewrite] at h
  · intro op adaptor h
    rcases elementwiseDefault_result_shape op adaptor with hs | hs
    · rw [hs]
    · rw [h] at hs
      exact absurd hs (by simp)
  · intro op adaptor h
    rcases scalarMul_result_shape op adaptor with hs | hs
    · rw [hs]
    · rw [h] at hs
      exact absurd hs (by simp)

/-- C8 witness: a declining invocation of the fusion rule performs no
action. -/
theorem c8_witness :
    (WmmaElementwiseOpToSPIRVScalarMulLowering.matchAndRewrite
        { operands := [x0, y0], opType := .MULF, resType := mt0 }
        { operands := [] }).2 = [] :=
  c8_decline_is_atomic.2.2.2.2.2
    { operands := [x0, y0], opType := .MULF, resType := mt0 } { operands := [] } rfl

/-- C9: every operation any rule can emit has a target kind, and every
registered rule is rooted at a generic kind, so on an already-fully-lowered
fragment, whose operations all have target kinds, no registered rule
matches and a second application of the rule set is a no-op. -/
theorem c9_rules_root_only_generic_kinds :
    (∀ t : TargetOp, (TargetOp.opKind t).isTargetKind = true) ∧
    (∀ e ∈ populateGpuWMMAToSPIRVCoopMatrixNVConversionPatterns,
      ∀ k : OpKind, patternMatchesKind e.rule k → k.isTargetKind = false) := by
  constructor
  · intro t
    cases t <;> first
      | rfl
      | (rename_i k rt ops; cases k <;> rfl)
  · intro e he k hk
    unfold patternMatchesKind at hk
    subst hk
    fin_cases he <;> rfl

/-- C9 witness: the load rule roots at the generic load kind, which is not a
target kind. -/
theorem c9_witness :
    OpKind.isTargetKind OpKind.gpuSubgroupMmaLoadMatrix = false :=
  c9_rules_root_only_generic_kinds.2 { rule := .loadLowering, benefit := 1 }
    (by decide) OpKind.gpuSubgroupMmaLoadMatrix rfl

/-- C10: when both original operands of a matching float-multiply are
produced by constant-matrix operations, the left branch of the classifier
wins deterministically: the lowered left operand is treated as the splat and
the lowered right operand as the matrix. -/
theorem c10_both_constant_left_wins (x y a b s : Value) (ty : MMAMatrixType)
    (ha : a.isCooperativeMatrixNVType = true)
    (hb : b.isCooperativeMatrixNVType = true)
    (hx : x.definingOpIsConstantMatrix = true)
    (hy : y.definingOpIsConstantMatrix = true)
    (hcc : getDefiningCompositeConstructConstituents a = some [s]) :
    WmmaElementwiseOpToSPIRVScalarMulLowering.matchAndRewrite
        { operands := [x, y], opType := .MULF, resType := ty }
        { operands := [a, b] } =
      (LogicalResult.success,
       [RewriteAction.replaceOpWith
         (TargetOp.matrixTimesScalar (convertMMAToSPIRVCoopMatrixNVType ty) b s)]) := by
  simp [WmmaElementwiseOpToSPIRVScalarMulLowering.matchAndRewrite,
    extractScalarFromSplat, ha, hb, hx, hcc, List.getLast?]

/-- C10 witness: both original operands constant-produced at concrete
inputs. -/
theorem c10_witness :
    WmmaElementwiseOpToSPIRVScalarMulLowering.matchAndRewrite
        { operands := [x0, y1], opType := .MULF, resType := mt0 }
        { operands := [a0, b0] } =
      (LogicalResult.success,
       [RewriteAction.replaceOpWith (TargetOp.matrixTimesScalar ct0 b0 s0)]) :=
  c10_both_constant_left_wins x0 y1 a0 b0 s0 mt0 rfl rfl rfl rfl rfl

end WmmaToSPIRV
